import Mathlib

/-!
Shallow embedding of the usage-accumulation and maintenance-scheduling
engine of `src/server.py` (preventiva_lancha).

Numbers: Python floats are modelled as rationals (`ℚ`), Python ints as
`ℤ`.  `round(x, 2)` is modelled as round-half-to-even at two decimal
places, the rounding mode Python's built-in `round` uses.

Embedded functions (names kept from the source):
* `atualizar_horas_totais`  — cumulative hour-meter fold (server.py:387-415)
* `atualizar_horas_paradas` — stopped-time fold (server.py:357-381)
* `calcular_status_preventiva` — maintenance planner (server.py:272-315)
* `set_horas_totais_update` — the state mutation performed by the
  calibration route `set_horas_totais` (server.py:824-827)
-/

/-- Round-half-to-even of a rational to an integer, as Python's `round`. -/
def halfEvenRound (q : ℚ) : ℤ :=
  if q - ⌊q⌋ < 1/2 then ⌊q⌋
  else if 1/2 < q - ⌊q⌋ then ⌊q⌋ + 1
  else if Even ⌊q⌋ then ⌊q⌋ else ⌊q⌋ + 1

/-- Python's `round(x, 2)`: round-half-to-even at two decimal places. -/
def round2 (q : ℚ) : ℚ :=
  (halfEvenRound (100 * q) : ℚ) / 100

/-- The `horimetro_state` dict stored on an asset: `last_ts` (0 means
uninitialized) and `last_motor`. -/
structure HorimetroState where
  last_ts : ℤ
  last_motor : Bool
deriving DecidableEq, Repr

/-- The slice of an asset record (`ativo`) read and written by
`atualizar_horas_totais`: the running total `horas_totais` and the
interval-tracking state `horimetro_state`. -/
structure AtivoHoras where
  horas_totais : ℚ
  horimetro_state : HorimetroState
deriving DecidableEq, Repr

/-- `atualizar_horas_totais(ativo, servertime, motor_ligado)`
(server.py:387-415).  Returns the mutated asset slice together with the
value the Python function returns (`round(total, 2)`). -/
def atualizar_horas_totais (ativo : AtivoHoras) (servertime : ℤ)
    (motor_ligado : Bool) : AtivoHoras × ℚ :=
  let last_ts := ativo.horimetro_state.last_ts
  let last_motor := ativo.horimetro_state.last_motor
  let total := ativo.horas_totais
  if last_ts = 0 then
    -- primeira leitura, só inicializa
    (⟨total, ⟨servertime, motor_ligado⟩⟩, round2 total)
  else
    let delta : ℤ := max 0 (servertime - last_ts)
    let total := if last_motor then total + (delta : ℚ) / 3600 else total
    (⟨total, ⟨servertime, motor_ligado⟩⟩, round2 total)

/-- The `paradas_state` dict stored on an asset: `last_ts` (0 means
uninitialized), `last_motor`, and the accumulated stopped seconds `acc_s`. -/
structure ParadasState where
  last_ts : ℤ
  last_motor : Bool
  acc_s : ℤ
deriving DecidableEq, Repr

/-- `atualizar_horas_paradas(ativo, servertime, motor_ligado)`
(server.py:357-381), acting on the `paradas_state` slice of the asset.
Returns the new state together with the value the Python function
returns (`round(acc_s / 3600.0, 2)`). -/
def atualizar_horas_paradas (st0 : ParadasState) (servertime : ℤ)
    (motor_ligado : Bool) : ParadasState × ℚ :=
  let init := if st0.last_ts = 0 then (⟨servertime, motor_ligado, 0⟩ : ParadasState) else st0
  let last_ts := init.last_ts
  let last_motor := init.last_motor
  let acc_s := init.acc_s
  let acc_s := if (!last_motor) && (!motor_ligado)
    then acc_s + max 0 (servertime - last_ts) else acc_s
  let acc_s := if (!last_motor) && motor_ligado then 0 else acc_s
  (⟨servertime, motor_ligado, acc_s⟩, round2 ((acc_s : ℚ) / 3600))

/-- The state mutation performed by the calibration route
`set_horas_totais` (server.py:824-827): set `horas_totais` to the
operator-supplied value and reset `horimetro_state`. -/
def set_horas_totais_update (_ativo : AtivoHoras) (horas_totais : ℚ) : AtivoHoras :=
  ⟨horas_totais, ⟨0, false⟩⟩

/-- Task status strings produced by `calcular_status_preventiva`. -/
inductive Status where
  | ATRASADO
  | ATENCAO
  | OK
deriving DecidableEq, Repr

/-- A maintenance-plan item as consumed by `calcular_status_preventiva`
(fields after the `float(...)` coercions at server.py:275-278). -/
structure PlanItem where
  nome : String
  unidade : String
  primeira_execucao : ℚ
  intervalo : ℚ
  avisar_antes : ℚ
deriving DecidableEq, Repr

/-- One entry of the task list built by `calcular_status_preventiva`
(the dict appended at server.py:298-309). -/
structure Tarefa where
  nome : String
  unidade : String
  primeira_execucao : ℚ
  intervalo : ℚ
  avisar_antes : ℚ
  proxima_execucao : ℚ
  faltam : ℚ
  status : Status
deriving DecidableEq, Repr

/-- `prioridade = {"ATRASADO": 0, "ATENCAO": 1, "OK": 2}` (server.py:313). -/
def prioridade : Status → ℕ
  | .ATRASADO => 0
  | .ATENCAO => 1
  | .OK => 2

/-- The sort key comparison used at server.py:314: ascending by the pair
`(prioridade[status], faltam)`. -/
def tarefaLe (a b : Tarefa) : Bool :=
  decide (prioridade a.status < prioridade b.status ∨
    (prioridade a.status = prioridade b.status ∧ a.faltam ≤ b.faltam))

/-- The next-due threshold `proxima` computed at server.py:284-288. -/
def proximaExecucao (uso_ajustado primeira intervalo : ℚ) : ℚ :=
  if uso_ajustado < primeira then primeira
  else primeira + (⌊(uso_ajustado - primeira) / intervalo⌋ + 1) * intervalo

/-- The body of the `for item in plano` loop of
`calcular_status_preventiva` (server.py:274-309): `none` when the item is
skipped by the `continue` guard, otherwise the task dict appended. -/
def avaliarItem (uso_ajustado : ℚ) (item : PlanItem) : Option Tarefa :=
  if item.intervalo ≤ 0 ∨ item.primeira_execucao ≤ 0 then none
  else
    let proxima := proximaExecucao uso_ajustado item.primeira_execucao item.intervalo
    let faltam := round2 (proxima - uso_ajustado)
    let status :=
      if faltam ≤ 0 then Status.ATRASADO
      else if faltam ≤ item.avisar_antes then Status.ATENCAO
      else Status.OK
    some ⟨item.nome, item.unidade, item.primeira_execucao, item.intervalo,
      item.avisar_antes, round2 proxima, faltam, status⟩

/-- `calcular_status_preventiva(uso_ajustado, plano)` (server.py:272-315).
Python's stable `list.sort` is modelled by `List.mergeSort`. -/
def calcular_status_preventiva (uso_ajustado : ℚ) (plano : List PlanItem) :
    List Tarefa :=
  (plano.filterMap (avaliarItem uso_ajustado)).mergeSort tarefaLe

/-- Well-formedness of a plan item: the negation of the skip guard
`intervalo <= 0 or primeira <= 0` at server.py:282. -/
def itemValido (item : PlanItem) : Bool :=
  decide (0 < item.intervalo) && decide (0 < item.primeira_execucao)

example : round2 (1/3) = 33/100 := by norm_num [round2, halfEvenRound]
example : round2 0 = 0 := by norm_num [round2, halfEvenRound]

example :
    (calcular_status_preventiva 95 [⟨"oleo", "hora", 100, 100, 10⟩]).map
      (fun t => (t.proxima_execucao, t.faltam, t.status)) =
    [(100, 5, Status.ATENCAO)] := by
  norm_num [calcular_status_preventiva, avaliarItem, proximaExecucao,
    round2, halfEvenRound, List.filterMap, List.mergeSort]

example :
    (calcular_status_preventiva 250 [⟨"oleo", "hora", 100, 100, 10⟩]).map
      (fun t => (t.proxima_execucao, t.faltam, t.status)) =
    [(300, 50, Status.OK)] := by
  norm_num [calcular_status_preventiva, avaliarItem, proximaExecucao,
    round2, halfEvenRound, List.filterMap, List.mergeSort]

/-! ### Helper lemmas -/

theorem round2_zero : round2 0 = 0 := by norm_num [round2, halfEvenRound]

theorem halfEvenRound_mono {a b : ℚ} (h : a ≤ b) :
    halfEvenRound a ≤ halfEvenRound b := by
  have hf : ⌊a⌋ ≤ ⌊b⌋ := Int.floor_le_floor h
  rcases lt_or_eq_of_le hf with hlt | heq
  · have h1 : halfEvenRound a ≤ ⌊a⌋ + 1 := by
      unfold halfEvenRound; split_ifs <;> omega
    have h2 : ⌊b⌋ ≤ halfEvenRound b := by
      unfold halfEvenRound; split_ifs <;> omega
    omega
  · have hfrac : a - (⌊a⌋ : ℚ) ≤ b - (⌊b⌋ : ℚ) := by
      rw [← heq]
      have : ((⌊a⌋ : ℚ)) ≤ (⌊a⌋ : ℚ) := le_refl _
      linarith
    unfold halfEvenRound
    rw [← heq] at hfrac ⊢
    split_ifs <;> first | omega | linarith

theorem round2_mono {a b : ℚ} (h : a ≤ b) : round2 a ≤ round2 b := by
  unfold round2
  have h1 : halfEvenRound (100 * a) ≤ halfEvenRound (100 * b) :=
    halfEvenRound_mono (by linarith)
  have h2 : ((halfEvenRound (100 * a) : ℤ) : ℚ) ≤ ((halfEvenRound (100 * b) : ℤ) : ℚ) := by
    exact_mod_cast h1
  linarith

/-! ### Claim theorems -/

/-- C2: for a fresh accumulator state (`last_ts == 0`), the first
`atualizar_horas_totais` call leaves `horas_totais` unchanged, records
`last_ts` and `last_motor`, and returns the (rounded) unchanged total —
no interval is folded, however large `servertime` is. -/
theorem atualizar_horas_totais_bootstrap (ativo : AtivoHoras) (servertime : ℤ)
    (motor_ligado : Bool) (h : ativo.horimetro_state.last_ts = 0) :
    (atualizar_horas_totais ativo servertime motor_ligado).1 =
      ⟨ativo.horas_totais, ⟨servertime, motor_ligado⟩⟩ ∧
    (atualizar_horas_totais ativo servertime motor_ligado).2 =
      round2 ativo.horas_totais := by
  simp [atualizar_horas_totais, h]

/-- Witness for `atualizar_horas_totais_bootstrap` at a concrete fresh
state and a very large first timestamp. -/
theorem atualizar_horas_totais_bootstrap_witness :
    (⟨(7 : ℚ), ⟨0, true⟩⟩ : AtivoHoras).horimetro_state.last_ts = 0 ∧
    ((atualizar_horas_totais ⟨7, ⟨0, true⟩⟩ 999999999 true).1 =
       ⟨(7 : ℚ), ⟨999999999, true⟩⟩ ∧
     (atualizar_horas_totais ⟨7, ⟨0, true⟩⟩ 999999999 true).2 = round2 7) :=
  ⟨rfl, atualizar_horas_totais_bootstrap ⟨7, ⟨0, true⟩⟩ 999999999 true rfl⟩

/-- C5: for any usage and any well-formed plan item (`primeira > 0`,
`intervalo > 0`), the next-due threshold `proxima` computed by
`calcular_status_preventiva` is strictly greater than the usage. -/
theorem proximaExecucao_gt_uso (uso_ajustado primeira intervalo : ℚ)
    (h1 : 0 < primeira) (h2 : 0 < intervalo) :
    uso_ajustado < proximaExecucao uso_ajustado primeira intervalo := by
  unfold proximaExecucao
  split_ifs with hlt
  · exact hlt
  · push_neg at hlt
    have hfloor : (uso_ajustado - primeira) / intervalo <
        ⌊(uso_ajustado - primeira) / intervalo⌋ + 1 :=
      Int.lt_floor_add_one _
    have hmul := (div_lt_iff₀ h2).mp hfloor
    linarith

/-- Witness for `proximaExecucao_gt_uso` at usage 250 and plan item
`{primeira 100, intervalo 100}`. -/
theorem proximaExecucao_gt_uso_witness :
    (0 : ℚ) < 100 ∧ (0 : ℚ) < 100 ∧ (250 : ℚ) < proximaExecucao 250 100 100 :=
  ⟨by norm_num, by norm_num,
    proximaExecucao_gt_uso 250 100 100 (by norm_num) (by norm_num)⟩

/-- C9: the calibration route sets `horas_totais` to the operator value
and resets `horimetro_state` to `{last_ts: 0, last_motor: false}`, so the
immediately following `atualizar_horas_totais` call bootstraps and
returns exactly the calibrated value, folding no prior interval. -/
theorem set_horas_totais_then_advance (ativo : AtivoHoras) (v : ℚ)
    (servertime : ℤ) (motor_ligado : Bool) :
    (set_horas_totais_update ativo v).horas_totais = v ∧
    (set_horas_totais_update ativo v).horimetro_state = ⟨0, false⟩ ∧
    (atualizar_horas_totais (set_horas_totais_update ativo v) servertime
      motor_ligado).1.horas_totais = v ∧
    (atualizar_horas_totais (set_horas_totais_update ativo v) servertime
      motor_ligado).2 = round2 v := by
  refine ⟨rfl, rfl, ?_, ?_⟩ <;>
    simp [atualizar_horas_totais, set_horas_totais_update]

/-- C10: whenever the stored `paradas_state` has `last_ts == 0`,
`atualizar_horas_paradas` discards any previously stored `acc_s`, stores
`acc_s = 0` and returns `0.0`. -/
theorem atualizar_horas_paradas_uninit (st : ParadasState) (servertime : ℤ)
    (motor_ligado : Bool) (h : st.last_ts = 0) :
    (atualizar_horas_paradas st servertime motor_ligado).1.acc_s = 0 ∧
    (atualizar_horas_paradas st servertime motor_ligado).2 = 0 := by
  cases motor_ligado <;>
    simp [atualizar_horas_paradas, h, round2_zero]

/-- Witness for `atualizar_horas_paradas_uninit`: an uninitialized state
carrying a stale nonzero `acc_s`. -/
theorem atualizar_horas_paradas_uninit_witness :
    (⟨0, true, 99999⟩ : ParadasState).last_ts = 0 ∧
    ((atualizar_horas_paradas ⟨0, true, 99999⟩ 123456 false).1.acc_s = 0 ∧
     (atualizar_horas_paradas ⟨0, true, 99999⟩ 123456 false).2 = 0) :=
  ⟨rfl, atualizar_horas_paradas_uninit ⟨0, true, 99999⟩ 123456 false rfl⟩

/-- C1: once initialized (`last_ts != 0`), `atualizar_horas_totais` never
decreases the stored total nor the (rounded) returned running-hours
value, even when `servertime` regresses below the stored `last_ts`: the
elapsed interval is `max 0 (servertime - last_ts)` and is only added. -/
theorem atualizar_horas_totais_monotone (ativo : AtivoHoras) (servertime : ℤ)
    (motor_ligado : Bool) (h : ativo.horimetro_state.last_ts ≠ 0) :
    ativo.horas_totais ≤
      (atualizar_horas_totais ativo servertime motor_ligado).1.horas_totais ∧
    round2 ativo.horas_totais ≤
      (atualizar_horas_totais ativo servertime motor_ligado).2 := by
  have key : ativo.horas_totais ≤
      (atualizar_horas_totais ativo servertime motor_ligado).1.horas_totais := by
    simp only [atualizar_horas_totais, if_neg h]
    cases hm : ativo.horimetro_state.last_motor <;> simp [hm]
    exact div_nonneg (le_max_left _ _) (by norm_num)
  have hsnd : (atualizar_horas_totais ativo servertime motor_ligado).2 =
      round2 (atualizar_horas_totais ativo servertime motor_ligado).1.horas_totais := by
    simp only [atualizar_horas_totais, if_neg h]
  refine ⟨key, ?_⟩
  rw [hsnd]
  exact round2_mono key

/-- Witness for `atualizar_horas_totais_monotone` at an initialized state
and a regressing timestamp (40 < stored 100). -/
theorem atualizar_horas_totais_monotone_witness :
    (⟨(5 : ℚ), ⟨100, true⟩⟩ : AtivoHoras).horimetro_state.last_ts ≠ 0 ∧
    ((⟨(5 : ℚ), ⟨100, true⟩⟩ : AtivoHoras).horas_totais ≤
       (atualizar_horas_totais ⟨5, ⟨100, true⟩⟩ 40 false).1.horas_totais ∧
     round2 (⟨(5 : ℚ), ⟨100, true⟩⟩ : AtivoHoras).horas_totais ≤
       (atualizar_horas_totais ⟨5, ⟨100, true⟩⟩ 40 false).2) :=
  ⟨by decide, atualizar_horas_totais_monotone ⟨5, ⟨100, true⟩⟩ 40 false (by decide)⟩

/-- C3: with `last_motor = true` at time `t0 = last_ts` and a new sample
with engine off at `t1 ≥ t0`, `atualizar_horas_totais` adds exactly
`(t1 - t0) / 3600` hours: the whole interval is attributed to the engine
state observed at its start. -/
theorem atualizar_horas_totais_attribution (ativo : AtivoHoras) (t1 : ℤ)
    (h0 : ativo.horimetro_state.last_ts ≠ 0)
    (hm : ativo.horimetro_state.last_motor = true)
    (h01 : ativo.horimetro_state.last_ts ≤ t1) :
    (atualizar_horas_totais ativo t1 false).1.horas_totais =
      ativo.horas_totais + ((t1 - ativo.horimetro_state.last_ts : ℤ) : ℚ) / 3600 := by
  simp only [atualizar_horas_totais, if_neg h0, hm]
  rw [max_eq_right (by omega : (0 : ℤ) ≤ t1 - ativo.horimetro_state.last_ts)]
  simp

/-- Witness for `atualizar_horas_totais_attribution`: engine on at
t0 = 1000, off sample at t1 = 4600, exactly one hour added. -/
theorem atualizar_horas_totais_attribution_witness :
    (⟨(2 : ℚ), ⟨1000, true⟩⟩ : AtivoHoras).horimetro_state.last_ts ≠ 0 ∧
    (⟨(2 : ℚ), ⟨1000, true⟩⟩ : AtivoHoras).horimetro_state.last_motor = true ∧
    (⟨(2 : ℚ), ⟨1000, true⟩⟩ : AtivoHoras).horimetro_state.last_ts ≤ 4600 ∧
    (atualizar_horas_totais ⟨2, ⟨1000, true⟩⟩ 4600 false).1.horas_totais =
      (⟨(2 : ℚ), ⟨1000, true⟩⟩ : AtivoHoras).horas_totais +
        ((4600 - (⟨(2 : ℚ), ⟨1000, true⟩⟩ : AtivoHoras).horimetro_state.last_ts : ℤ) : ℚ) / 3600 :=
  ⟨by decide, rfl, by decide,
    atualizar_horas_totais_attribution ⟨2, ⟨1000, true⟩⟩ 4600 (by decide) rfl (by decide)⟩

/-- Counterexample to C4 as stated: feeding engine off at t0=100, off at
t1=200, on at t2=300, off at t3=400 through `atualizar_horas_paradas`
from a fresh state leaves `acc_s = 0` after the final off sample, not
`t3 - t2 = 100`: the interval [t2,t3] was an engine-on interval and is
never added to stopped time. -/
theorem atualizar_horas_paradas_stop_reset_counterexample :
    ((atualizar_horas_paradas
        ((atualizar_horas_paradas
            ((atualizar_horas_paradas
                ((atualizar_horas_paradas ⟨0, false, 0⟩ 100 false).1)
              200 false).1)
          300 true).1)
      400 false).1).acc_s ≠ 400 - 300 := by decide

/-- C4 (amended): for the sample sequence off@t0, off@t1, on@t2, off@t3
from a fresh `paradas_state`, `acc_s` is exactly 0 after the on sample at
t2, and still exactly 0 after the subsequent off sample at t3 (the
interval [t2,t3] is attributed to the engine-on state at its start;
stopped time only starts accumulating from the next off-to-off
interval). -/
theorem atualizar_horas_paradas_stop_reset (t0 t1 t2 t3 : ℤ)
    (lm : Bool) (acc : ℤ) :
    ((atualizar_horas_paradas
        ((atualizar_horas_paradas
            ((atualizar_horas_paradas ⟨0, lm, acc⟩ t0 false).1)
          t1 false).1)
      t2 true).1).acc_s = 0 ∧
    ((atualizar_horas_paradas
        ((atualizar_horas_paradas
            ((atualizar_horas_paradas
                ((atualizar_horas_paradas ⟨0, lm, acc⟩ t0 false).1)
              t1 false).1)
          t2 true).1)
      t3 false).1).acc_s = 0 := by
  by_cases h0 : t0 = 0 <;> by_cases h1 : t1 = 0 <;> by_cases h2 : t2 = 0 <;>
    simp [atualizar_horas_paradas, h0, h1, h2]

/-- Counterexample to C6 as stated: evaluating the planner at usage 100
against the plan item {primeira 100, intervalo 100, avisar_antes 10}
does NOT yield a task with `faltam = 0` and status ATRASADO. -/
theorem calcular_status_preventiva_100_counterexample :
    ¬ ∃ t : Tarefa,
        calcular_status_preventiva 100 [⟨"oleo", "hora", 100, 100, 10⟩] = [t] ∧
        t.faltam = 0 ∧ t.status = Status.ATRASADO := by
  have heval :
      calcular_status_preventiva 100 [⟨"oleo", "hora", 100, 100, 10⟩] =
        [⟨"oleo", "hora", 100, 100, 10, 200, 100, Status.OK⟩] := by
    norm_num [calcular_status_preventiva, avaliarItem, proximaExecucao,
      round2, halfEvenRound, List.filterMap, List.mergeSort]
  rintro ⟨t, ht, hf, _⟩
  rw [heval] at ht
  have hteq : (⟨"oleo", "hora", 100, 100, 10, 200, 100, Status.OK⟩ : Tarefa) = t := by
    injection ht
  rw [← hteq] at hf
  norm_num at hf

/-- C6 (amended): evaluating the planner at usage 100 against the plan
item {primeira 100, intervalo 100, avisar_antes 10} yields exactly one
task with next-due 200, `faltam = 100` and status OK: at usage exactly
equal to a due threshold the planner already picks the next multiple, so
the remaining margin is the full interval. -/
theorem calcular_status_preventiva_100 :
    calcular_status_preventiva 100 [⟨"oleo", "hora", 100, 100, 10⟩] =
      [⟨"oleo", "hora", 100, 100, 10, 200, 100, Status.OK⟩] := by
  norm_num [calcular_status_preventiva, avaliarItem, proximaExecucao,
    round2, halfEvenRound, List.filterMap, List.mergeSort]

theorem tarefaLe_trans (a b c : Tarefa) (hab : tarefaLe a b = true)
    (hbc : tarefaLe b c = true) : tarefaLe a c = true := by
  simp only [tarefaLe, decide_eq_true_eq] at hab hbc ⊢
  rcases hab with h | ⟨he, hf⟩ <;> rcases hbc with h' | ⟨he', hf'⟩
  · exact Or.inl (h.trans h')
  · exact Or.inl (he' ▸ h)
  · exact Or.inl (he ▸ h')
  · exact Or.inr ⟨he.trans he', hf.trans hf'⟩

theorem tarefaLe_total (a b : Tarefa) : (tarefaLe a b || tarefaLe b a) = true := by
  simp only [tarefaLe, Bool.or_eq_true, decide_eq_true_eq]
  rcases Nat.lt_trichotomy (prioridade a.status) (prioridade b.status) with h | h | h
  · exact Or.inl (Or.inl h)
  · rcases le_total a.faltam b.faltam with hf | hf
    · exact Or.inl (Or.inr ⟨h, hf⟩)
    · exact Or.inr (Or.inr ⟨h.symm, hf⟩)
  · exact Or.inr (Or.inl h)

theorem avaliarItem_some_of_valido (uso_ajustado : ℚ) {item : PlanItem}
    (h : itemValido item = true) :
    ∃ t, avaliarItem uso_ajustado item = some t := by
  simp only [itemValido, Bool.and_eq_true, decide_eq_true_eq] at h
  simp [avaliarItem, not_le.mpr h.1, not_le.mpr h.2]

theorem avaliarItem_none_of_invalido (uso_ajustado : ℚ) {item : PlanItem}
    (h : ¬ itemValido item = true) :
    avaliarItem uso_ajustado item = none := by
  simp only [itemValido, Bool.and_eq_true, decide_eq_true_eq, not_and_or,
    not_lt] at h
  rcases h with h | h <;> simp [avaliarItem, h]

theorem filterMap_avaliarItem_filter (uso_ajustado : ℚ) (l : List PlanItem) :
    l.filterMap (avaliarItem uso_ajustado) =
      (l.filter itemValido).filterMap (avaliarItem uso_ajustado) := by
  induction l with
  | nil => rfl
  | cons hd tl ih =>
    by_cases hv : itemValido hd = true
    · obtain ⟨t, ht⟩ := avaliarItem_some_of_valido uso_ajustado hv
      simp [List.filterMap_cons, List.filter_cons, hv, ht, ih]
    · have hnone := avaliarItem_none_of_invalido uso_ajustado hv
      simp [List.filterMap_cons, List.filter_cons, hv, hnone, ih]

theorem length_filterMap_avaliarItem (uso_ajustado : ℚ) (l : List PlanItem)
    (hall : ∀ x ∈ l, itemValido x = true) :
    (l.filterMap (avaliarItem uso_ajustado)).length = l.length := by
  induction l with
  | nil => rfl
  | cons hd tl ih =>
    obtain ⟨t, ht⟩ :=
      avaliarItem_some_of_valido uso_ajustado (hall hd (List.mem_cons_self hd tl))
    simp [List.filterMap_cons, ht,
      ih (fun x hx => hall x (List.mem_cons_of_mem hd hx))]

/-- C7: for any usage and any plan, the task list produced by
`calcular_status_preventiva` is sorted ascending by the pair
`(prioridade status, faltam)`: priority ATRASADO < ATENCAO < OK, ties
within a status broken by smaller `faltam` first, regardless of plan
declaration order. -/
theorem calcular_status_preventiva_sorted (uso_ajustado : ℚ)
    (plano : List PlanItem) :
    (calcular_status_preventiva uso_ajustado plano).Pairwise
      (fun a b => prioridade a.status < prioridade b.status ∨
        (prioridade a.status = prioridade b.status ∧ a.faltam ≤ b.faltam)) := by
  unfold calcular_status_preventiva
  have h := List.sorted_mergeSort tarefaLe_trans tarefaLe_total
    (plano.filterMap (avaliarItem uso_ajustado))
  exact h.imp (fun hab => by simpa [tarefaLe] using hab)

/-- C8: `calcular_status_preventiva` is total, skips exactly the
malformed items (`intervalo ≤ 0` or `primeira ≤ 0`): the result is
unchanged when malformed items are removed from the plan, and each
well-formed item contributes exactly one task. -/
theorem calcular_status_preventiva_skips (uso_ajustado : ℚ)
    (plano : List PlanItem) :
    calcular_status_preventiva uso_ajustado plano =
      calcular_status_preventiva uso_ajustado (plano.filter itemValido) ∧
    (calcular_status_preventiva uso_ajustado plano).length =
      (plano.filter itemValido).length := by
  constructor
  · unfold calcular_status_preventiva
    rw [filterMap_avaliarItem_filter]
  · unfold calcular_status_preventiva
    rw [List.length_mergeSort, filterMap_avaliarItem_filter,
      length_filterMap_avaliarItem uso_ajustado (plano.filter itemValido)
        (fun x hx => (List.mem_filter.mp hx).2)]
